import Mathlib

/-!
Shallow embedding of `internal/provider/reservation_data_source.go` from
terraform-provider-azureipam: the reservation lookup data source.

The Go file implements a read-only data source: given a space, an ordered
list of candidate blocks and a reservation id, `Read` queries the backend
client block by block until a match is found ("first match wins"),
distinguishing continuable "Reservation not found" errors (by substring
match on the error message) from fatal errors, and projects the found
reservation into the Terraform state model.  `Configure` installs the
backend client on the data source.

The backend client is modelled as a pure function from (space, block, id)
to `Except String Reservation` (the error carries the Go error message).
To reason about which blocks are consulted and in which order, the loop
also returns the trace of blocks on which the backend was invoked.
-/

set_option maxHeartbeats 1000000

namespace AzureIpam

/-- `ipamclient.Reservation` as consumed by this file: string fields plus
tags as an association list (the Go `map[string]string`). -/
structure Reservation where
  id : String
  cidr : String
  description : String
  createdOn : String
  createdBy : String
  settledOn : String
  settledBy : String
  status : String
  tags : List (String × String)
  deriving Repr, DecidableEq

/-- The backend capability `GetReservation(space, block, id)`: a reservation
or an error message (`err.Error()` in Go). -/
abbrev GetReservation := String → String → String → Except String Reservation

/-- The substring the loop tests for with `strings.Contains` (line 140). -/
def notFoundSubstr : String := "Reservation not found"

/-- `strings.Contains s pat`: `pat` occurs as a contiguous substring of `s`. -/
def strContains (s pat : String) : Bool := decide (pat.data <:+: s.data)

/-- Outcome of the block loop of `Read` (lines 130-152): a reservation was
found, a fatal (non-"not found") backend error aborted the loop at some
block, or all blocks were exhausted with `lastErr` as the last-seen error. -/
inductive LoopResult where
  | found (r : Reservation)
  | fatal (block err : String)
  | exhausted (lastErr : Option String)
  deriving Repr, DecidableEq

/-- The `for _, block := range blocks` loop of `Read` (lines 132-152),
threading the `lastErr` variable, together with the trace of blocks on
which the backend client was invoked, in order. -/
def lookupLoop (client : GetReservation) (space id : String) :
    List String → Option String → LoopResult × List String
  | [], lastErr => (LoopResult.exhausted lastErr, [])
  | b :: rest, _lastErr =>
    match client space b id with
    | Except.ok r => (LoopResult.found r, [b])
    | Except.error e =>
      if strContains e notFoundSubstr then
        ((lookupLoop client space id rest (some e)).1,
          b :: (lookupLoop client space id rest (some e)).2)
      else
        (LoopResult.fatal b e, [b])

/-- `reservationDataSourceModel`: the Terraform state model.  The two
RFC3339 fields are represented by the wrapped timestamp value. -/
structure RFC3339 where
  value : String
  deriving Repr, DecidableEq

/-- Modelled from the spec: the RFC3339 custom type adaptation — "no
transformation beyond type adaptation (string passthrough, timestamp
parse, map passthrough)"; the parsed value wraps the timestamp string. -/
def parseRFC3339 (s : String) : RFC3339 := RFC3339.mk s

/-- `reservationDataSourceModel` (and, for the fields `flattenReservation`
fills, `reservationResourceModel`): space/blocks/id inputs plus the
computed fields. -/
structure StateModel where
  space : String
  blocks : List String
  id : String
  cidr : String
  description : String
  createdOn : RFC3339
  createdBy : String
  settledOn : RFC3339
  settledBy : String
  status : String
  tags : List (String × String)
  deriving Repr, DecidableEq

/-- The zero-valued `var model reservationResourceModel` of line 164. -/
def emptyStateModel : StateModel where
  space := ""
  blocks := []
  id := ""
  cidr := ""
  description := ""
  createdOn := RFC3339.mk ""
  createdBy := ""
  settledOn := RFC3339.mk ""
  settledBy := ""
  status := ""
  tags := []

/-- Modelled from the spec: `flattenReservation` lives in the reservation
resource file, which is not among the sources here; per the spec it
projects the backend reservation into the model "field-by-field (id, cidr,
description, createdOn, createdBy, settledOn, settledBy, status, tags)
with no transformation beyond type adaptation (string passthrough,
timestamp parse, map passthrough)". -/
def flattenReservation (r : Reservation) (m : StateModel) : StateModel :=
  { m with
    id := r.id
    cidr := r.cidr
    description := r.description
    createdOn := parseRFC3339 r.createdOn
    createdBy := r.createdBy
    settledOn := parseRFC3339 r.settledOn
    settledBy := r.settledBy
    status := r.status
    tags := r.tags }

/-- Lines 163-174 of `Read`: the state written on a successful lookup —
the input attributes of `state` are kept and the computed fields are copied
from the flattened model (tags directly from the reservation, line 174). -/
def foundState (config : StateModel) (r : Reservation) : StateModel :=
  let model := flattenReservation r emptyStateModel
  { config with
    id := model.id
    cidr := model.cidr
    description := model.description
    createdOn := model.createdOn
    createdBy := model.createdBy
    settledOn := model.settledOn
    settledBy := model.settledBy
    status := model.status
    tags := r.tags }

/-- The observable response of `Read`: the diagnostics added (title,
message pairs) and the state written by `resp.State.Set` (`none` when
`Read` returns before reaching line 177). -/
structure ReadResponse where
  diagnostics : List (String × String)
  state : Option StateModel
  deriving Repr, DecidableEq

/-- Detail of the "Invalid Configuration" diagnostic (lines 123-126). -/
def invalidConfigMsg : String :=
  "At least one block must be specified in 'blocks'."

/-- Detail of the fatal-error diagnostic (line 146):
`fmt.Sprintf("space=%s block=%s error=%s", ...)`. -/
def fatalMsg (space block err : String) : String :=
  "space=" ++ space ++ " block=" ++ block ++ " error=" ++ err

/-- Detail of the aggregate not-found diagnostic (line 157):
`fmt.Sprintf("Reservation with id '%s' was not found in provided blocks.", ...)`. -/
def aggregateMsg (id : String) : String :=
  "Reservation with id '" ++ id ++ "' was not found in provided blocks."

/-- `reservationDataSource.Read` (lines 110-182) for a well-formed
configuration (`req.Config.Get` and `ElementsAs` succeed), paired with the
trace of blocks on which the backend was invoked. -/
def Read (client : GetReservation) (config : StateModel) :
    ReadResponse × List String :=
  if config.blocks = [] then
    ({ diagnostics := [("Invalid Configuration", invalidConfigMsg)],
       state := none }, [])
  else
    match lookupLoop client config.space config.id config.blocks none with
    | (LoopResult.found r, trace) =>
      ({ diagnostics := [], state := some (foundState config r) }, trace)
    | (LoopResult.fatal b e, trace) =>
      ({ diagnostics := [("Unable to Read AzureIpam Reservation",
            fatalMsg config.space b e)],
         state := none }, trace)
    | (LoopResult.exhausted _, trace) =>
      ({ diagnostics := [("Reservation Not Found", aggregateMsg config.id)],
         state := none }, trace)

/-- `req.ProviderData` as seen by `Configure`: nil, a backend client, or a
value of some other dynamic type (named by Go's `%T`). -/
inductive ProviderData where
  | nil
  | ipamClient (c : GetReservation)
  | other (typeName : String)

/-- The data source receiver: its `client` field (nil as `none`). -/
structure DataSource where
  client : Option GetReservation

/-- `reservationDataSource.Configure` (lines 185-203): the updated
receiver and the diagnostics added. -/
def Configure (d : DataSource) (pd : ProviderData) :
    DataSource × List (String × String) :=
  match pd with
  | ProviderData.nil => (d, [])
  | ProviderData.ipamClient c => ({ d with client := some c }, [])
  | ProviderData.other t =>
    (d, [("Unexpected Data Source Configure Type",
        "Expected *azureipam.Client, got: " ++ t ++
          ". Please report this issue to the provider developers.")])

/-! ### Concrete fixtures (used by the witnesses) -/

/-- The reservation of the spec's scenario: found in block `b2` with cidr
`10.1.2.0/28`. -/
def resW : Reservation where
  id := "X"
  cidr := "10.1.2.0/28"
  description := "demo"
  createdOn := "2024-01-01T00:00:00Z"
  createdBy := "alice"
  settledOn := "2024-01-02T00:00:00Z"
  settledBy := "bob"
  status := "wait"
  tags := [("X-IPAM-RES-ID", "X")]

/-- A backend for which `b1` misses ("Reservation not found") and every
other block returns `resW`. -/
def clientW : GetReservation := fun _ block _ =>
  if block = "b1" then Except.error "Reservation not found"
  else Except.ok resW

/-- A backend for which `b1` misses and `b2` fails with a non-"not found"
error. -/
def clientFatalW : GetReservation := fun _ block _ =>
  if block = "b1" then Except.error "Reservation not found"
  else Except.error "connection refused"

/-- A backend for which every block misses, with a per-block message. -/
def clientNFW : GetReservation := fun _ block _ =>
  Except.error ("Reservation not found in " ++ block)

/-- The per-block error messages produced by `clientNFW`. -/
def errOfW (block : String) : String := "Reservation not found in " ++ block

/-- The configuration of the spec's scenario: `blocks=["b1","b2"]`, id "X". -/
def configW : StateModel :=
  { emptyStateModel with space := "s", blocks := ["b1", "b2"], id := "X" }

/-- A three-block configuration. -/
def configW3 : StateModel :=
  { emptyStateModel with space := "s", blocks := ["b1", "b2", "b3"], id := "X" }

/-- A configuration with an empty blocks list. -/
def configEmptyW : StateModel :=
  { emptyStateModel with space := "s", blocks := [], id := "X" }

/-! ### Lemmas about the lookup loop -/

/-- A prefix of blocks that all miss with a continuable error is consulted
and skipped: the loop behaves as on the remaining blocks (for some
last-seen error), with the skipped prefix prepended to the call trace. -/
theorem lookupLoop_append_notfound (client : GetReservation) (space id : String) :
    ∀ (pre rest : List String) (le : Option String),
      (∀ b ∈ pre, ∃ e, client space b id = Except.error e ∧
          strContains e notFoundSubstr = true) →
      ∃ le', lookupLoop client space id (pre ++ rest) le =
        ((lookupLoop client space id rest le').1,
          pre ++ (lookupLoop client space id rest le').2) := by
  intro pre
  induction pre with
  | nil => exact fun rest le _ => ⟨le, by simp⟩
  | cons b pre ih =>
    intro rest le h
    obtain ⟨e, he, hc⟩ := h b (by simp)
    obtain ⟨le', ih'⟩ := ih rest (some e) (fun b' hb' => h b' (by simp [hb']))
    exact ⟨le', by simp [lookupLoop, he, hc, ih']⟩

/-- When every block misses with a continuable error, the loop exhausts
all blocks in order and keeps the error of the last block. -/
theorem lookupLoop_all_notfound (client : GetReservation) (space id : String)
    (errOf : String → String) :
    ∀ (init : List String) (bn : String) (le : Option String),
      (∀ b ∈ init ++ [bn], client space b id = Except.error (errOf b) ∧
          strContains (errOf b) notFoundSubstr = true) →
      lookupLoop client space id (init ++ [bn]) le =
        (LoopResult.exhausted (some (errOf bn)), init ++ [bn]) := by
  intro init
  induction init with
  | nil =>
    intro bn le h
    obtain ⟨he, hc⟩ := h bn (by simp)
    simp [lookupLoop, he, hc]
  | cons b init ih =>
    intro bn le h
    obtain ⟨he, hc⟩ := h b (by simp)
    have ih' := ih bn (some (errOf b)) (fun b' hb' => h b' (by simp at hb' ⊢; tauto))
    simp [lookupLoop, he, hc, ih']

/-- The loop calls the backend at least once when there are blocks: the
call trace is empty exactly when the blocks list is. -/
theorem lookupLoop_trace_nil (client : GetReservation) (space id : String)
    (bs : List String) (le : Option String) :
    (lookupLoop client space id bs le).2 = [] ↔ bs = [] := by
  cases bs with
  | nil => simp [lookupLoop]
  | cons b rest =>
    cases he : client space b id with
    | ok r => simp [lookupLoop, he]
    | error e =>
      by_cases hc : strContains e notFoundSubstr = true
      · simp [lookupLoop, he, hc]
      · simp [lookupLoop, he, hc]

/-- `strContains` holds of any string given a substring decomposition. -/
theorem strContains_of_infix {s pat : String} (h : pat.data <:+: s.data) :
    strContains s pat = true := decide_eq_true h

/-! ### Claim theorems -/

/-- C1: when the blocks list decomposes as `pre ++ bk :: post` with every
block of `pre` yielding a continuable "Reservation not found" error and
block `bk` yielding a reservation `r`, `Read` invokes the backend exactly
on `pre ++ [bk]`, in list order (so `post` is never consulted), adds no
diagnostic, and writes the state built from `r` (first match wins). -/
theorem read_first_match_wins (client : GetReservation) (config : StateModel)
    (pre : List String) (bk : String) (post : List String)
    (hblocks : config.blocks = pre ++ bk :: post)
    (hpre : ∀ b ∈ pre, ∃ e, client config.space b config.id = Except.error e ∧
        strContains e notFoundSubstr = true)
    (r : Reservation)
    (hk : client config.space bk config.id = Except.ok r) :
    Read client config =
      ({ diagnostics := [], state := some (foundState config r) }, pre ++ [bk]) := by
  obtain ⟨le', hskip⟩ := lookupLoop_append_notfound client config.space config.id
    pre (bk :: post) none hpre
  have hstep : lookupLoop client config.space config.id (bk :: post) le' =
      (LoopResult.found r, [bk]) := by
    simp [lookupLoop, hk]
  have hloop : lookupLoop client config.space config.id config.blocks none =
      (LoopResult.found r, pre ++ [bk]) := by
    rw [hblocks, hskip, hstep]
  have hne : ¬ config.blocks = [] := by simp [hblocks]
  simp [Read, hne, hloop]

/-- C1 witness: the spec's scenario — `blocks=["b1","b2"]`, id `X` missing
from `b1` and found in `b2` with cidr `10.1.2.0/28`; the backend is
invoked on `b1` then `b2`. -/
theorem read_first_match_wins_witness :
    Read clientW configW =
      ({ diagnostics := [], state := some (foundState configW resW) },
        ["b1"] ++ ["b2"]) :=
  read_first_match_wins clientW configW ["b1"] "b2" [] rfl
    (fun b hb => ⟨"Reservation not found", by
      have hb' : b = "b1" := by simpa using hb
      subst hb'
      exact ⟨rfl, by decide⟩⟩)
    resW rfl

/-- C2: when the blocks list decomposes as `pre ++ bj :: post` with every
block of `pre` yielding a continuable error and block `bj` failing with an
error whose message lacks the "Reservation not found" substring, `Read`
surfaces that error as a read-failure diagnostic whose message contains
the space, the block and the error message, writes no state, and the
backend is invoked exactly on `pre ++ [bj]` (fail-fast: `post` is never
consulted). -/
theorem read_fail_fast (client : GetReservation) (config : StateModel)
    (pre : List String) (bj : String) (post : List String)
    (hblocks : config.blocks = pre ++ bj :: post)
    (hpre : ∀ b ∈ pre, ∃ e, client config.space b config.id = Except.error e ∧
        strContains e notFoundSubstr = true)
    (e : String)
    (hj : client config.space bj config.id = Except.error e)
    (hfatal : strContains e notFoundSubstr = false) :
    Read client config =
      ({ diagnostics := [("Unable to Read AzureIpam Reservation",
            fatalMsg config.space bj e)],
         state := none }, pre ++ [bj]) ∧
    strContains (fatalMsg config.space bj e) config.space = true ∧
    strContains (fatalMsg config.space bj e) bj = true ∧
    strContains (fatalMsg config.space bj e) e = true := by
  obtain ⟨le', hskip⟩ := lookupLoop_append_notfound client config.space config.id
    pre (bj :: post) none hpre
  have hstep : lookupLoop client config.space config.id (bj :: post) le' =
      (LoopResult.fatal bj e, [bj]) := by
    simp [lookupLoop, hj, hfatal]
  have hloop : lookupLoop client config.space config.id config.blocks none =
      (LoopResult.fatal bj e, pre ++ [bj]) := by
    rw [hblocks, hskip, hstep]
  have hne : ¬ config.blocks = [] := by simp [hblocks]
  refine ⟨by simp [Read, hne, hloop], ?_, ?_, ?_⟩
  · exact strContains_of_infix ⟨"space=".data,
      (" block=" ++ bj ++ " error=" ++ e).data, by simp [fatalMsg]⟩
  · exact strContains_of_infix ⟨("space=" ++ config.space ++ " block=").data,
      (" error=" ++ e).data, by simp [fatalMsg]⟩
  · exact strContains_of_infix ⟨("space=" ++ config.space ++ " block=" ++ bj
        ++ " error=").data, [], by simp [fatalMsg]⟩

/-- C2 witness: `b1` misses, `b2` fails with "connection refused"; the
error is surfaced and `b3` is never consulted. -/
theorem read_fail_fast_witness :
    Read clientFatalW configW3 =
      ({ diagnostics := [("Unable to Read AzureIpam Reservation",
            fatalMsg configW3.space "b2" "connection refused")],
         state := none }, ["b1"] ++ ["b2"]) :=
  (read_fail_fast clientFatalW configW3 ["b1"] "b2" ["b3"] rfl
    (fun b hb => ⟨"Reservation not found", by
      have hb' : b = "b1" := by simpa using hb
      subst hb'
      exact ⟨rfl, by decide⟩⟩)
    "connection refused" rfl (by decide)).1

/-- C3: with an empty blocks list, `Read` terminates with the "Invalid
Configuration" diagnostic ("At least one block must be specified in
'blocks'."), writes no state, and the backend is never invoked (empty
call trace). -/
theorem read_empty_blocks (client : GetReservation) (config : StateModel)
    (h : config.blocks = []) :
    Read client config =
      ({ diagnostics := [("Invalid Configuration", invalidConfigMsg)],
         state := none }, []) := by
  simp [Read, h]

/-- C3 witness: the empty-blocks configuration. -/
theorem read_empty_blocks_witness :
    Read clientW configEmptyW =
      ({ diagnostics := [("Invalid Configuration", invalidConfigMsg)],
         state := none }, []) :=
  read_empty_blocks clientW configEmptyW rfl

/-- C4: when every block yields a continuable "Reservation not found"
error (blocks written as `init ++ [bn]`, hence non-empty), `Read` returns
the aggregate not-found diagnostic whose message contains the reservation
id (and, being `aggregateMsg config.id`, depends on the id alone — no
block is enumerated), writes no state, and the backend is invoked exactly
once per block, in the given order. -/
theorem read_aggregate_notfound (client : GetReservation) (config : StateModel)
    (errOf : String → String) (init : List String) (bn : String)
    (hblocks : config.blocks = init ++ [bn])
    (h : ∀ b ∈ config.blocks, client config.space b config.id = Except.error (errOf b) ∧
        strContains (errOf b) notFoundSubstr = true) :
    Read client config =
      ({ diagnostics := [("Reservation Not Found", aggregateMsg config.id)],
         state := none }, config.blocks) ∧
    strContains (aggregateMsg config.id) config.id = true := by
  have hloop := lookupLoop_all_notfound client config.space config.id errOf init bn none
    (by rw [← hblocks]; exact h)
  have hloop' : lookupLoop client config.space config.id config.blocks none =
      (LoopResult.exhausted (some (errOf bn)), config.blocks) := by
    rw [hblocks]; exact hloop
  have hne : ¬ config.blocks = [] := by simp [hblocks]
  refine ⟨by simp [Read, hne, hloop'], ?_⟩
  exact strContains_of_infix ⟨"Reservation with id '".data,
    "' was not found in provided blocks.".data, by simp [aggregateMsg]⟩

/-- C4 witness: both blocks miss; the aggregate diagnostic is returned and
the backend was invoked on `b1` then `b2`. -/
theorem read_aggregate_notfound_witness :
    Read clientNFW configW =
      ({ diagnostics := [("Reservation Not Found", aggregateMsg configW.id)],
         state := none }, configW.blocks) ∧
    strContains (aggregateMsg configW.id) configW.id = true :=
  read_aggregate_notfound clientNFW configW errOfW ["b1"] "b2" rfl
    (fun b hb => by
      have hb' : b = "b1" ∨ b = "b2" := by
        simpa [configW, emptyStateModel] using hb
      rcases hb' with h1 | h2
      · subst h1; exact ⟨rfl, by decide⟩
      · subst h2; exact ⟨rfl, by decide⟩)

/-- C5: on a backend error `e` at the current block `b`, the loop
continues with the remaining blocks (recording `e` as the last-seen error
and `b` in the call trace) exactly when the message `e` contains the
substring "Reservation not found" (a string-content match), and aborts as
fatal at `b` with no further backend calls exactly when it does not. -/
theorem lookup_continue_iff_notfound_substring (client : GetReservation)
    (space id b : String) (rest : List String) (le : Option String) (e : String)
    (he : client space b id = Except.error e) :
    (lookupLoop client space id (b :: rest) le =
        ((lookupLoop client space id rest (some e)).1,
          b :: (lookupLoop client space id rest (some e)).2)
      ↔ strContains e notFoundSubstr = true) ∧
    (lookupLoop client space id (b :: rest) le = (LoopResult.fatal b e, [b])
      ↔ strContains e notFoundSubstr = false) := by
  by_cases hc : strContains e notFoundSubstr = true
  · have hl : lookupLoop client space id (b :: rest) le =
        ((lookupLoop client space id rest (some e)).1,
          b :: (lookupLoop client space id rest (some e)).2) := by
      simp [lookupLoop, he, hc]
    refine ⟨by simp [hl, hc], ?_⟩
    rw [hl, hc]
    constructor
    · intro hpair
      have h1 : (lookupLoop client space id rest (some e)).1 = LoopResult.fatal b e :=
        congrArg Prod.fst hpair
      have h2 : b :: (lookupLoop client space id rest (some e)).2 = [b] :=
        congrArg Prod.snd hpair
      have hnil : (lookupLoop client space id rest (some e)).2 = [] := by
        simpa using h2
      have hrest : rest = [] := (lookupLoop_trace_nil client space id rest (some e)).mp hnil
      subst hrest
      simp [lookupLoop] at h1
    · intro hfalse
      exact absurd hfalse (by decide)
  · have hc' : strContains e notFoundSubstr = false := by
      cases hcc : strContains e notFoundSubstr
      · rfl
      · exact absurd hcc hc
    have hl : lookupLoop client space id (b :: rest) le = (LoopResult.fatal b e, [b]) := by
      simp [lookupLoop, he, hc']
    refine ⟨?_, by simp [hl, hc']⟩
    rw [hl, hc']
    constructor
    · intro hpair
      have h1 : LoopResult.fatal b e = (lookupLoop client space id rest (some e)).1 :=
        congrArg Prod.fst hpair
      have h2 : ([b] : List String) = b :: (lookupLoop client space id rest (some e)).2 :=
        congrArg Prod.snd hpair
      have hnil : (lookupLoop client space id rest (some e)).2 = [] := by
        simpa using h2.symm
      have hrest : rest = [] := (lookupLoop_trace_nil client space id rest (some e)).mp hnil
      subst hrest
      simp [lookupLoop] at h1
    · intro htrue
      exact absurd htrue (by decide)

/-- C5 witness: at block `b1` of `clientNFW` the error message contains
the substring, so the first branch of the equivalence applies. -/
theorem lookup_continue_iff_notfound_substring_witness :
    (lookupLoop clientNFW "s" "X" ("b1" :: ["b2"]) none =
        ((lookupLoop clientNFW "s" "X" ["b2"] (some "Reservation not found in b1")).1,
          "b1" :: (lookupLoop clientNFW "s" "X" ["b2"]
            (some "Reservation not found in b1")).2)
      ↔ strContains "Reservation not found in b1" notFoundSubstr = true) ∧
    (lookupLoop clientNFW "s" "X" ("b1" :: ["b2"]) none =
        (LoopResult.fatal "b1" "Reservation not found in b1", ["b1"])
      ↔ strContains "Reservation not found in b1" notFoundSubstr = false) :=
  lookup_continue_iff_notfound_substring clientNFW "s" "X" "b1" ["b2"] none
    "Reservation not found in b1" rfl

/-- C6: the projection of a backend reservation into the output record
(the state written on a match) is a field-by-field identity on id, cidr,
description, createdBy, settledBy, status and tags, the only
transformation being the RFC3339 adaptation of createdOn and settledOn. -/
theorem found_projection_identity (config : StateModel) (r : Reservation) :
    (foundState config r).id = r.id ∧
    (foundState config r).cidr = r.cidr ∧
    (foundState config r).description = r.description ∧
    (foundState config r).createdBy = r.createdBy ∧
    (foundState config r).settledBy = r.settledBy ∧
    (foundState config r).status = r.status ∧
    (foundState config r).tags = r.tags ∧
    (foundState config r).createdOn = parseRFC3339 r.createdOn ∧
    (foundState config r).settledOn = parseRFC3339 r.settledOn := by
  simp [foundState, flattenReservation]

/-- C7: when every block misses with a continuable error (blocks written
as `init ++ [bn]`), the exhausted outcome carries exactly the last-seen
error — the one from the final block `bn`; being a single optional value,
no earlier per-block error is preserved in it. -/
theorem loop_keeps_last_error (client : GetReservation) (space id : String)
    (errOf : String → String) (init : List String) (bn : String)
    (h : ∀ b ∈ init ++ [bn], client space b id = Except.error (errOf b) ∧
        strContains (errOf b) notFoundSubstr = true) :
    (lookupLoop client space id (init ++ [bn]) none).1 =
      LoopResult.exhausted (some (errOf bn)) := by
  rw [lookupLoop_all_notfound client space id errOf init bn none h]

/-- C7 witness: both blocks of `clientNFW` miss; the exhausted outcome
carries the message of block `b2`, the final one. -/
theorem loop_keeps_last_error_witness :
    (lookupLoop clientNFW "s" "X" (["b1"] ++ ["b2"]) none).1 =
      LoopResult.exhausted (some (errOfW "b2")) :=
  loop_keeps_last_error clientNFW "s" "X" errOfW ["b1"] "b2"
    (fun b hb => by
      have hb' : b = "b1" ∨ b = "b2" := by simpa using hb
      rcases hb' with h1 | h2
      · subst h1; exact ⟨rfl, by decide⟩
      · subst h2; exact ⟨rfl, by decide⟩)

/-- C8: `Read` writes the response state exactly when the lookup loop
found a reservation (which requires a non-empty blocks list); whenever any
diagnostic is produced — configuration error, fatal backend error, or
aggregate not-found — no state is written. -/
theorem read_state_only_on_found (client : GetReservation) (config : StateModel) :
    ((Read client config).1.state ≠ none ↔
      ¬ config.blocks = [] ∧ ∃ r trace,
        lookupLoop client config.space config.id config.blocks none =
          (LoopResult.found r, trace)) ∧
    ((Read client config).1.diagnostics ≠ [] → (Read client config).1.state = none) := by
  by_cases hb : config.blocks = []
  · simp [Read, hb]
  · rcases hl : lookupLoop client config.space config.id config.blocks none with ⟨res, trace⟩
    cases res with
    | found r => simp [Read, hb, hl]
    | fatal b e => simp [Read, hb, hl]
    | exhausted le => simp [Read, hb, hl]

/-- C9: whenever `Read` writes a state, that state keeps the input
attributes `space` and `blocks` of the configuration unchanged, and its
computed fields are exactly those of some found reservation (the
field-by-field projection of C6). -/
theorem read_found_frame (client : GetReservation) (config : StateModel)
    (st : StateModel) (h : (Read client config).1.state = some st) :
    st.space = config.space ∧ st.blocks = config.blocks ∧
    ∃ r, st = foundState config r ∧
      st.id = r.id ∧ st.cidr = r.cidr ∧ st.description = r.description ∧
      st.createdOn = parseRFC3339 r.createdOn ∧ st.createdBy = r.createdBy ∧
      st.settledOn = parseRFC3339 r.settledOn ∧ st.settledBy = r.settledBy ∧
      st.status = r.status ∧ st.tags = r.tags := by
  by_cases hb : config.blocks = []
  · simp [Read, hb] at h
  · rcases hl : lookupLoop client config.space config.id config.blocks none with ⟨res, trace⟩
    cases res with
    | found r =>
      have hst : foundState config r = st := by
        simpa [Read, hb, hl] using h
      subst hst
      refine ⟨rfl, rfl, r, rfl, ?_⟩
      simp [foundState, flattenReservation]
    | fatal b e => simp [Read, hb, hl] at h
    | exhausted le => simp [Read, hb, hl] at h

/-- C9 witness: in the spec's scenario the written state is
`foundState configW resW`, which keeps `space` and `blocks` and carries
the fields of `resW`. -/
theorem read_found_frame_witness :
    (foundState configW resW).space = configW.space ∧
    (foundState configW resW).blocks = configW.blocks ∧
    ∃ r, foundState configW resW = foundState configW r ∧
      (foundState configW resW).id = r.id ∧
      (foundState configW resW).cidr = r.cidr ∧
      (foundState configW resW).description = r.description ∧
      (foundState configW resW).createdOn = parseRFC3339 r.createdOn ∧
      (foundState configW resW).createdBy = r.createdBy ∧
      (foundState configW resW).settledOn = parseRFC3339 r.settledOn ∧
      (foundState configW resW).settledBy = r.settledBy ∧
      (foundState configW resW).status = r.status ∧
      (foundState configW resW).tags = r.tags :=
  read_found_frame clientW configW (foundState configW resW) (by decide)

/-- C10: `Configure` stores the backend client exactly when the provider
data is a client: with nil provider data it returns the receiver
unchanged with no diagnostic; with a client it stores it and adds no
diagnostic; with data of any other dynamic type it adds the "Unexpected
Data Source Configure Type" error naming that type and leaves the
receiver unchanged. -/
theorem configure_cases (d : DataSource) (pd : ProviderData) :
    Configure d pd =
      (match pd with
       | ProviderData.nil => (d, [])
       | ProviderData.ipamClient c => ({ client := some c }, [])
       | ProviderData.other t =>
         (d, [("Unexpected Data Source Configure Type",
             "Expected *azureipam.Client, got: " ++ t ++
               ". Please report this issue to the provider developers.")])) := by
  cases pd <;> rfl

end AzureIpam
